import Mathlib

/-!
Shallow embedding of the zpredict browser-side session/token layer.

Sources embedded here:
  - src/website/static/js/auth-utils.js
      refreshAccessToken, authenticatedFetch, getCurrentUserInfo,
      isTokenExpired, clearAuthTokens
  - src/UI/static/js/app.js (class AuthManager)
      isTokenExpired, refreshAccessToken, login, logout, clearTokens
  - src/unnamed/part_002  authenticatedFetch (chat-history page variant)
  - src/unnamed/part_009  tryRefreshToken (index page variant)

Modelling conventions:
  - localStorage is modelled as SessionState with the two slots the spec
    names (access_token, refresh_token).  part_002 additionally falls back
    to sessionStorage for each key; both physical stores are collapsed into
    the same logical slot, which is faithful for every property stated here
    (they quantify over the values the reads produce).
  - a fetch call is modelled by a FetchOutcome parameter: either the
    promise rejects (throws) or an HTTP response with a status and a
    parsed JSON body arrives.  response.ok is status in [200, 300).
  - JWT payload decoding (atob of the middle segment plus JSON.parse) is
    modelled by an explicit decodeToken parameter of type
    String -> Option Claims; none models any decode failure.
  - JavaScript coercions that the code exercises are made explicit:
    localStorage.setItem with an undefined value stores the string
    "undefined" (jsToString); a template literal interpolates null as
    "null" (jsTemplate); the expression a || b treats the empty string as
    falsy (jsOrString).
  - functions that only read the store are still written state-passing
    (returning the unchanged state) so that frame properties about them
    are actual statements rather than typing accidents.
-/

namespace ZPredict

/-- Decoded JWT claims. The spec's data model says the middle segment
decodes to a JSON object containing at least exp (Unix seconds) plus
identity fields. -/
structure Claims where
  user_id : Nat
  email : String
  exp : Nat
deriving Repr, DecidableEq

/-- The two token slots of localStorage that the spec calls SessionState:
access_token and refresh_token. A none models an absent key
(localStorage.getItem returning null). -/
structure SessionState where
  access : Option String
  refresh : Option String
deriving Repr, DecidableEq

/-- Outcome of one fetch call: the promise rejects (network-level failure),
or an HTTP response arrives with a status code and a parsed JSON body. -/
inductive FetchOutcome (β : Type) where
  | throws : FetchOutcome β
  | response : Nat → β → FetchOutcome β
deriving Repr, DecidableEq

/-- response.ok of the fetch API: status in the range [200, 300). -/
def isOk (status : Nat) : Bool :=
  decide (200 ≤ status) && decide (status < 300)

/-- localStorage.setItem coerces its value to a string: storing the result
of data.access when the body has no access field stores "undefined". -/
def jsToString : Option String → String
  | some s => s
  | none => "undefined"

/-- A JavaScript template literal interpolates null as the string "null"
(localStorage.getItem returns null for a missing key). -/
def jsTemplate : Option String → String
  | some s => s
  | none => "null"

/-- JavaScript a || b on an optional string: a missing field and the empty
string are both falsy. -/
def jsOrString (v : Option String) (d : String) : String :=
  match v with
  | some s => if s = "" then d else s
  | none => d

/-- Parsed JSON body of the token-refresh endpoint; none models a body
with no access field. -/
structure RefreshBody where
  access : Option String
deriving Repr, DecidableEq

/-- clearAuthTokens of auth-utils.js: removes access_token and
refresh_token (and the user_info blob, which is outside SessionState). -/
def clearAuthTokens (_st : SessionState) : SessionState :=
  { access := none, refresh := none }

/-- refreshAccessToken of auth-utils.js (lines 8-40). Reads refresh_token;
absent: false without a network call. Then one POST to the refresh
endpoint: ok response stores data.access and returns true; non-ok removes
both tokens and returns false; a thrown fetch is caught, logged and
returns false without touching the store. -/
def refreshAccessToken (st : SessionState) (net : FetchOutcome RefreshBody) :
    Bool × SessionState :=
  match st.refresh with
  | none => (false, st)
  | some _ =>
    match net with
    | .throws => (false, st)
    | .response status body =>
      if isOk status then
        (true, { st with access := some (jsToString body.access) })
      else
        (false, { access := none, refresh := none })

/-- AuthManager.refreshAccessToken of app.js (lines 973-996). Takes the
refresh token as an argument (it only feeds the request body, so it does
not influence control flow here); ok response stores data.access and
returns true, non-ok clears both tokens, a thrown fetch returns false
without clearing. -/
def AuthManager_refreshAccessToken (refreshToken : String) (st : SessionState)
    (net : FetchOutcome RefreshBody) : Bool × SessionState :=
  let _ := refreshToken
  match net with
  | .throws => (false, st)
  | .response status body =>
    if isOk status then
      (true, { st with access := some (jsToString body.access) })
    else
      (false, { access := none, refresh := none })

/-- tryRefreshToken of src/unnamed/part_009 (lines 82-111). Reads
refresh_token; absent: only UI work. Ok response stores data.access;
non-ok clears both tokens (clearTokensAndShowAuth); and, unlike the
auth-utils variant, the catch branch for a thrown fetch also calls
clearTokensAndShowAuth, clearing both tokens on a network-level failure. -/
def tryRefreshToken (st : SessionState) (net : FetchOutcome RefreshBody) :
    SessionState :=
  match st.refresh with
  | none => st
  | some _ =>
    match net with
    | .throws => { access := none, refresh := none }
    | .response status body =>
      if isOk status then
        { st with access := some (jsToString body.access) }
      else
        { access := none, refresh := none }

/-- The user_info record built by getCurrentUserInfo of auth-utils.js. -/
structure UserInfo where
  user_id : Nat
  email : String
  exp : Nat
deriving Repr, DecidableEq

/-- getCurrentUserInfo of auth-utils.js (lines 115-134). Reads the access
token; absent: null. Decodes the middle JWT segment; a decode error is
caught and null is returned. The store is only read, never written. -/
def getCurrentUserInfo (decodeToken : String → Option Claims)
    (st : SessionState) : Option UserInfo × SessionState :=
  match st.access with
  | none => (none, st)
  | some token =>
    match decodeToken token with
    | none => (none, st)
    | some payload => (some ⟨payload.user_id, payload.email, payload.exp⟩, st)

/-- isTokenExpired of auth-utils.js (lines 140-149). True when
getCurrentUserInfo gives null or userInfo.exp is falsy (0), else compares
floor(Date.now() / 1000) >= exp. The store is only read, never written. -/
def isTokenExpired (decodeToken : String → Option Claims)
    (st : SessionState) (nowMs : Nat) : Bool × SessionState :=
  match getCurrentUserInfo decodeToken st with
  | (none, st1) => (true, st1)
  | (some u, st1) =>
    if u.exp = 0 then (true, st1)
    else (decide (nowMs / 1000 ≥ u.exp), st1)

/-- AuthManager.isTokenExpired of app.js (lines 961-970). No token or a
decode failure: true. Otherwise the strict comparison
payload.exp * 1000 < Date.now(). -/
def AuthManager_isTokenExpired (decodeToken : String → Option Claims)
    (st : SessionState) (nowMs : Nat) : Bool :=
  match st.access with
  | none => true
  | some token =>
    match decodeToken token with
    | none => true
    | some payload => decide (payload.exp * 1000 < nowMs)

/-- Errors authenticatedFetch of auth-utils.js can throw: the synchronous
no-token error, the authentication-failed error after a failed refresh,
and a rethrown network-level fetch rejection. -/
inductive AuthFetchError where
  | noToken : AuthFetchError
  | authFailed : AuthFetchError
  | network : AuthFetchError
deriving Repr, DecidableEq

/-- An HTTP response as returned to the caller: status plus opaque body. -/
structure HttpResponse where
  status : Nat
  body : String
deriving Repr, DecidableEq

/-- The caller-supplied fetch options, restricted to the one header that
the embedded control flow inspects: a caller-supplied Authorization value
(options.headers is spread after the defaults, so a caller value wins on
the first request). -/
structure FetchOptions where
  authHeader : Option String
deriving Repr, DecidableEq

/-- Record of the network calls a run performed: the Authorization header
sent on each resource-endpoint call, in order (none when the request
carried no Authorization header), and how many calls hit the
token-refresh endpoint. -/
structure Trace where
  resourceAuthHeaders : List (Option String)
  refreshCalls : Nat
deriving Repr, DecidableEq

/-- The Bearer template literal used for the Authorization header. -/
def bearer (token : String) : String := "Bearer " ++ token

/-- Authorization header of the first resource request in auth-utils.js:
the default Bearer of the stored token, overridden by a caller-supplied
Authorization header if present. -/
def mergedAuthHeader (opts : FetchOptions) (token : String) : String :=
  match opts.authHeader with
  | some h => h
  | none => bearer token

/-- Number of network calls one invocation of refreshAccessToken makes:
none when refresh_token is absent, one otherwise. -/
def refreshNetworkCalls (st : SessionState) : Nat :=
  match st.refresh with
  | none => 0
  | some _ => 1

/-- authenticatedFetch of auth-utils.js (lines 48-90). No stored access
token: throws the no-token error synchronously, before any fetch.
Otherwise issues the request with the merged headers; a non-401 response
is returned unchanged. On a 401 it calls refreshAccessToken: on success
it re-reads access_token from the store, rewrites the Authorization
header from it, re-issues the request once and returns that second
response unchanged (even a second 401); on failure it throws the
authentication-failed error. Thrown fetch errors are logged and
rethrown. -/
def authenticatedFetch (st : SessionState) (opts : FetchOptions)
    (res1 res2 : FetchOutcome String) (refreshNet : FetchOutcome RefreshBody) :
    Except AuthFetchError HttpResponse × SessionState × Trace :=
  match st.access with
  | none => (.error .noToken, st, ⟨[], 0⟩)
  | some token =>
    let auth1 := mergedAuthHeader opts token
    match res1 with
    | .throws => (.error .network, st, ⟨[some auth1], 0⟩)
    | .response status1 body1 =>
      if status1 = 401 then
        match refreshAccessToken st refreshNet with
        | (true, st1) =>
          let auth2 := bearer (jsTemplate st1.access)
          match res2 with
          | .throws =>
            (.error .network, st1,
             ⟨[some auth1, some auth2], refreshNetworkCalls st⟩)
          | .response status2 body2 =>
            (.ok ⟨status2, body2⟩, st1,
             ⟨[some auth1, some auth2], refreshNetworkCalls st⟩)
        | (false, st1) =>
          (.error .authFailed, st1, ⟨[some auth1], refreshNetworkCalls st⟩)
      else
        (.ok ⟨status1, body1⟩, st, ⟨[some auth1], 0⟩)

/-- authenticatedFetch of src/unnamed/part_002 (lines 42-94). Builds the
config with an Authorization header only if a token is stored; it never
throws a no-token error and always issues the resource request. The
refresh-and-retry branch runs only when the first response is a 401 AND a
token was present; inside it, a missing refresh token, a non-ok refresh
response, or any thrown error (including a thrown retry fetch) falls
through to returning the FIRST response. On an ok refresh it stores
data.access, rewrites the Authorization header from data.access and
returns the second response. -/
def part002_authenticatedFetch (st : SessionState) (opts : FetchOptions)
    (res1 res2 : FetchOutcome String) (refreshNet : FetchOutcome RefreshBody) :
    Except AuthFetchError HttpResponse × SessionState × Trace :=
  let auth1 : Option String :=
    match opts.authHeader with
    | some h => some h
    | none =>
      match st.access with
      | some token => some (bearer token)
      | none => none
  match res1 with
  | .throws => (.error .network, st, ⟨[auth1], 0⟩)
  | .response status1 body1 =>
    if status1 = 401 && st.access.isSome then
      match st.refresh with
      | none => (.ok ⟨status1, body1⟩, st, ⟨[auth1], 0⟩)
      | some _ =>
        match refreshNet with
        | .throws => (.ok ⟨status1, body1⟩, st, ⟨[auth1], 1⟩)
        | .response rs rb =>
          if isOk rs then
            let newAccess := jsToString rb.access
            let st1 : SessionState := { st with access := some newAccess }
            match res2 with
            | .throws =>
              (.ok ⟨status1, body1⟩, st1,
               ⟨[auth1, some (bearer newAccess)], 1⟩)
            | .response s2 b2 =>
              (.ok ⟨s2, b2⟩, st1, ⟨[auth1, some (bearer newAccess)], 1⟩)
          else
            (.ok ⟨status1, body1⟩, st, ⟨[auth1], 1⟩)
    else
      (.ok ⟨status1, body1⟩, st, ⟨[auth1], 0⟩)

/-- Parsed JSON body of the admin login endpoint: token pair on success,
detail or message on failure (each field possibly missing). -/
structure LoginBody where
  access : Option String
  refresh : Option String
  detail : Option String
  message : Option String
deriving Repr, DecidableEq

/-- The record AuthManager.login and AuthManager.logout of app.js return
to their caller. -/
structure LoginResult where
  success : Bool
  message : String
deriving Repr, DecidableEq

/-- AuthManager.login of app.js (lines 999-1029). Ok response: stores
data.access and data.refresh, returns success with the fixed message.
Non-ok: returns failure with the message built from
error.detail || error.message || the generic fallback, prefixed with
the literal text of line 1019; the store is untouched. A thrown fetch is
caught and yields the connection-error failure, store untouched. -/
def login (st : SessionState) (net : FetchOutcome LoginBody) :
    LoginResult × SessionState :=
  match net with
  | .throws =>
    (⟨false, "Connection error. Please check your connection and try again."⟩,
     st)
  | .response status body =>
    if isOk status then
      (⟨true, "Login successful! Welcome back."⟩,
       { access := some (jsToString body.access),
         refresh := some (jsToString body.refresh) })
    else
      (⟨false, "Login failed: " ++
          jsOrString body.detail (jsOrString body.message "Invalid credentials")⟩,
       st)

/-- AuthManager.clearTokens of app.js (lines 1054-1057). -/
def AuthManager_clearTokens (_st : SessionState) : SessionState :=
  { access := none, refresh := none }

/-- AuthManager.logout of app.js (lines 1032-1051). If a token is stored,
a best-effort POST to the logout endpoint is made inside a try whose catch
only logs; the finally block then clears both tokens and returns the
success record, whatever the network did. -/
def AuthManager_logout (st : SessionState) (net : FetchOutcome Unit) :
    LoginResult × SessionState :=
  match st.access with
  | none =>
    (⟨true, "Logged out successfully"⟩, AuthManager_clearTokens st)
  | some _ =>
    match net with
    | .throws =>
      (⟨true, "Logged out successfully"⟩, AuthManager_clearTokens st)
    | .response _ _ =>
      (⟨true, "Logged out successfully"⟩, AuthManager_clearTokens st)

/-- A concrete decode function used by witnesses and counterexamples:
decodes the token "tok" to a claims record with exp 5 and treats any
other string as undecodable. -/
def demoDecode : String → Option Claims :=
  fun s => if s = "tok" then some ⟨7, "user@example.com", 5⟩ else none

/-- Inversion of a successful refresh: refreshAccessToken only returns
true when a refresh token was stored and the endpoint answered an ok
status, and then the updated state stores the coerced access field of the
body. -/
theorem refresh_true_inversion (st : SessionState) (net : FetchOutcome RefreshBody)
    (h : (refreshAccessToken st net).1 = true) :
    ∃ r status body, st.refresh = some r ∧ net = .response status body ∧
      isOk status = true ∧
      refreshAccessToken st net =
        (true, { st with access := some (jsToString body.access) }) := by
  cases hr : st.refresh with
  | none => simp [refreshAccessToken, hr] at h
  | some r =>
    cases net with
    | throws => simp [refreshAccessToken, hr] at h
    | response s b =>
      by_cases hok : isOk s = true
      · exact ⟨r, s, b, rfl, rfl, hok, by simp [refreshAccessToken, hr, hok]⟩
      · simp [refreshAccessToken, hr, hok] at h

/-- Claim C2 amended: on a network-level failure of the refresh call,
refreshAccessToken in auth-utils.js and AuthManager.refreshAccessToken in
app.js return false and leave SessionState untouched; the tryRefreshToken
variant of part_009 instead clears both tokens from the store. -/
theorem refresh_network_failure_behavior :
    (∀ st : SessionState, refreshAccessToken st .throws = (false, st)) ∧
    (∀ (rt : String) (st : SessionState),
        AuthManager_refreshAccessToken rt st .throws = (false, st)) ∧
    (∀ (st : SessionState) (r : String), st.refresh = some r →
        tryRefreshToken st .throws = { access := none, refresh := none }) := by
  refine ⟨?_, ?_, ?_⟩
  · intro st
    cases hr : st.refresh <;> simp [refreshAccessToken, hr]
  · intro rt st
    rfl
  · intro st r hr
    simp [tryRefreshToken, hr]

/-- Witness for the amended C2 statement at concrete stores. -/
theorem refresh_network_failure_behavior_witness :
    refreshAccessToken ⟨some "a", some "r"⟩ .throws =
      (false, ⟨some "a", some "r"⟩) ∧
    AuthManager_refreshAccessToken "r" ⟨some "a", some "r"⟩ .throws =
      (false, ⟨some "a", some "r"⟩) ∧
    tryRefreshToken ⟨some "a2", some "r2"⟩ .throws =
      { access := none, refresh := none } :=
  ⟨refresh_network_failure_behavior.1 _,
   refresh_network_failure_behavior.2.1 "r" _,
   refresh_network_failure_behavior.2.2 _ "r2" rfl⟩

/-- Counterexample to claim C2 as stated: with both tokens stored, a
throwing refresh call through the part_009 tryRefreshToken variant clears
the store instead of leaving the previous values in place. -/
theorem part009_refresh_throw_clears_store :
    (tryRefreshToken ⟨some "a", some "r"⟩ .throws).access = none ∧
    (tryRefreshToken ⟨some "a", some "r"⟩ .throws).refresh = none ∧
    tryRefreshToken ⟨some "a", some "r"⟩ .throws ≠
      (⟨some "a", some "r"⟩ : SessionState) := by
  refine ⟨rfl, rfl, by decide⟩

/-- Claim C3: with a refresh token stored, any non-2xx answer from the
refresh endpoint makes refreshAccessToken return false and remove both
the access token and the refresh token from SessionState. -/
theorem refresh_nonOk_clears_tokens (st : SessionState) (r : String)
    (status : Nat) (body : RefreshBody)
    (hr : st.refresh = some r) (hbad : isOk status = false) :
    refreshAccessToken st (.response status body) =
      (false, { access := none, refresh := none }) := by
  simp [refreshAccessToken, hr, hbad]

/-- Witness for C3: a stored pair and a 401 refresh answer. -/
theorem refresh_nonOk_clears_tokens_witness :
    refreshAccessToken ⟨some "a", some "r"⟩ (.response 401 ⟨some "x"⟩) =
      (false, { access := none, refresh := none }) :=
  refresh_nonOk_clears_tokens ⟨some "a", some "r"⟩ "r" 401 ⟨some "x"⟩ rfl
    (by decide)

/-- Claim C4: with a refresh token stored, a 200 answer with body access X
makes refreshAccessToken return true, store X as the access token and
leave the refresh slot untouched (only the access slot is mutated). -/
theorem refresh_ok_sets_access_only (st : SessionState) (r x : String)
    (hr : st.refresh = some r) :
    refreshAccessToken st (.response 200 ⟨some x⟩) =
      (true, { st with access := some x }) := by
  simp [refreshAccessToken, hr, isOk, jsToString]

/-- Witness for C4 at a concrete store and token. -/
theorem refresh_ok_sets_access_only_witness :
    refreshAccessToken ⟨some "a", some "r"⟩ (.response 200 ⟨some "X"⟩) =
      (true, { access := some "X", refresh := some "r" }) :=
  refresh_ok_sets_access_only ⟨some "a", some "r"⟩ "r" "X" rfl

/-- Claim C7 amended: login against 200 with an access and refresh pair
writes both tokens and reports success; against 400 with a detail field
it reports failure with the detail prefixed by the fixed text
"Login failed: " and does not mutate the store. -/
theorem login_success_and_failure (st : SessionState) (a r d : String)
    (hd : d ≠ "") :
    login st (.response 200 ⟨some a, some r, none, none⟩) =
      (⟨true, "Login successful! Welcome back."⟩, ⟨some a, some r⟩) ∧
    login st (.response 400 ⟨none, none, some d, none⟩) =
      (⟨false, "Login failed: " ++ d⟩, st) := by
  constructor
  · simp [login, isOk, jsToString]
  · simp [login, isOk, jsOrString, hd]

/-- Witness for the amended C7 statement at concrete inputs. -/
theorem login_success_and_failure_witness :
    login ⟨some "pa", some "pr"⟩
        (.response 200 ⟨some "na", some "nr", none, none⟩) =
      (⟨true, "Login successful! Welcome back."⟩, ⟨some "na", some "nr"⟩) ∧
    login ⟨some "pa", some "pr"⟩
        (.response 400 ⟨none, none, some "bad credentials", none⟩) =
      (⟨false, "Login failed: " ++ "bad credentials"⟩, ⟨some "pa", some "pr"⟩) :=
  login_success_and_failure ⟨some "pa", some "pr"⟩ "na" "nr" "bad credentials"
    (by decide)

/-- Counterexample to claim C7 as stated: against a 400 answer with
detail "bad credentials", login returns the message
"Login failed: bad credentials", not the bare detail string the claim
names. -/
theorem login_failure_message_prefixed :
    (login ⟨some "a0", some "r0"⟩
        (.response 400 ⟨none, none, some "bad credentials", none⟩)).1 =
      ⟨false, "Login failed: bad credentials"⟩ ∧
    ("Login failed: bad credentials" : String) ≠ "bad credentials" := by
  refine ⟨rfl, by decide⟩

/-- Claim C8: AuthManager.logout clears both tokens and reports success in
every execution, whether the best-effort logout call is skipped, answers,
or throws. -/
theorem logout_always_clears (st : SessionState) (net : FetchOutcome Unit) :
    AuthManager_logout st net =
      (⟨true, "Logged out successfully"⟩,
       { access := none, refresh := none }) := by
  cases st with
  | mk a r => cases a <;> cases net <;> rfl

/-- Witness for C8 at a concrete store with a throwing logout call. -/
theorem logout_always_clears_witness :
    AuthManager_logout ⟨some "a", some "r"⟩ .throws =
      (⟨true, "Logged out successfully"⟩,
       { access := none, refresh := none }) :=
  logout_always_clears ⟨some "a", some "r"⟩ .throws

/-- Claim C10: a 2xx refresh answer always yields true, and when the body
has no access field both refreshAccessToken and
AuthManager.refreshAccessToken store the coerced string "undefined" as
the new access token. -/
theorem refresh_2xx_missing_access_stores_undefined (st : SessionState)
    (r rt : String) (status : Nat)
    (hr : st.refresh = some r) (hok : isOk status = true) :
    refreshAccessToken st (.response status ⟨none⟩) =
      (true, { st with access := some "undefined" }) ∧
    AuthManager_refreshAccessToken rt st (.response status ⟨none⟩) =
      (true, { st with access := some "undefined" }) := by
  constructor
  · simp [refreshAccessToken, hr, hok, jsToString]
  · simp [AuthManager_refreshAccessToken, hok, jsToString]

/-- Witness for C10 at a concrete store and a 200 answer with empty
body. -/
theorem refresh_2xx_missing_access_stores_undefined_witness :
    refreshAccessToken ⟨some "a", some "r"⟩ (.response 200 ⟨none⟩) =
      (true, { access := some "undefined", refresh := some "r" }) ∧
    AuthManager_refreshAccessToken "r" ⟨some "a", some "r"⟩
        (.response 200 ⟨none⟩) =
      (true, { access := some "undefined", refresh := some "r" }) :=
  refresh_2xx_missing_access_stores_undefined ⟨some "a", some "r"⟩ "r" "r" 200
    rfl (by decide)

/-- Claim C5 amended: both expiry checks are pure and never fail, but they
differ at the boundary instant. The auth-utils isTokenExpired reports
expired exactly when no access token is stored, the token fails to
decode, or claims.exp * 1000 <= now; the app.js AuthManager.isTokenExpired
uses the strict comparison claims.exp * 1000 < now instead. -/
theorem isExpired_characterization (d : String → Option Claims)
    (st : SessionState) (nowMs : Nat) :
    ((isTokenExpired d st nowMs).1 = true ↔
      st.access = none ∨
      (∃ t, st.access = some t ∧ d t = none) ∨
      (∃ t c, st.access = some t ∧ d t = some c ∧ c.exp * 1000 ≤ nowMs)) ∧
    (isTokenExpired d st nowMs).2 = st ∧
    (AuthManager_isTokenExpired d st nowMs = true ↔
      st.access = none ∨
      (∃ t, st.access = some t ∧ d t = none) ∨
      (∃ t c, st.access = some t ∧ d t = some c ∧ c.exp * 1000 < nowMs)) := by
  cases ha : st.access with
  | none =>
    simp [isTokenExpired, getCurrentUserInfo, AuthManager_isTokenExpired, ha]
  | some t =>
    cases hd : d t with
    | none =>
      simp [isTokenExpired, getCurrentUserInfo, AuthManager_isTokenExpired,
        ha, hd]
    | some c =>
      by_cases he : c.exp = 0
      · simp [isTokenExpired, getCurrentUserInfo, AuthManager_isTokenExpired,
          ha, hd, he]
      · have hdiv : nowMs / 1000 ≥ c.exp ↔ c.exp * 1000 ≤ nowMs :=
          Nat.le_div_iff_mul_le (by norm_num)
        simp [isTokenExpired, getCurrentUserInfo, AuthManager_isTokenExpired,
          ha, hd, he, hdiv]

/-- Witness for the amended C5 statement: with exp 5 and now 6000 ms both
checks report expired. -/
theorem isExpired_characterization_witness :
    (isTokenExpired demoDecode ⟨some "tok", some "r"⟩ 6000).1 = true ∧
    AuthManager_isTokenExpired demoDecode ⟨some "tok", some "r"⟩ 6000 = true :=
  ⟨(isExpired_characterization demoDecode ⟨some "tok", some "r"⟩ 6000).1.mpr
      (Or.inr (Or.inr ⟨"tok", ⟨7, "user@example.com", 5⟩, rfl, by decide,
        by norm_num⟩)),
   (isExpired_characterization demoDecode ⟨some "tok", some "r"⟩ 6000).2.2.mpr
      (Or.inr (Or.inr ⟨"tok", ⟨7, "user@example.com", 5⟩, rfl, by decide,
        by norm_num⟩))⟩

/-- Counterexample to claim C5 as stated: for a token whose exp is 5 and
now exactly 5000 ms (so claims.exp * 1000 <= now holds), the app.js
AuthManager.isTokenExpired still returns false. -/
theorem authManager_isExpired_boundary_false :
    demoDecode "tok" = some ⟨7, "user@example.com", 5⟩ ∧
    5 * 1000 ≤ 5000 ∧
    AuthManager_isTokenExpired demoDecode ⟨some "tok", some "r"⟩ 5000 =
      false := by
  refine ⟨by decide, by norm_num, by decide⟩

/-- Claim C9 amended: detecting a malformed or undecodable access token
does not clear SessionState. getCurrentUserInfo returns null and
isTokenExpired reports expired, but both leave the store exactly as it
was, so an undecodable access token can stay paired with a present
refresh token. -/
theorem malformed_detection_leaves_store (d : String → Option Claims)
    (st : SessionState) (nowMs : Nat) (t : String)
    (ha : st.access = some t) (hd : d t = none) :
    (getCurrentUserInfo d st).1 = none ∧
    (getCurrentUserInfo d st).2 = st ∧
    (isTokenExpired d st nowMs).1 = true ∧
    (isTokenExpired d st nowMs).2 = st := by
  simp [getCurrentUserInfo, isTokenExpired, ha, hd]

/-- Witness for the amended C9 statement at a concrete undecodable
token. -/
theorem malformed_detection_leaves_store_witness :
    (getCurrentUserInfo demoDecode ⟨some "bad", some "r"⟩).1 = none ∧
    (getCurrentUserInfo demoDecode ⟨some "bad", some "r"⟩).2 =
      (⟨some "bad", some "r"⟩ : SessionState) ∧
    (isTokenExpired demoDecode ⟨some "bad", some "r"⟩ 0).1 = true ∧
    (isTokenExpired demoDecode ⟨some "bad", some "r"⟩ 0).2 =
      (⟨some "bad", some "r"⟩ : SessionState) :=
  malformed_detection_leaves_store demoDecode ⟨some "bad", some "r"⟩ 0 "bad"
    rfl (by decide)

/-- Counterexample to claim C9 as stated: the store holds an undecodable
access token and a refresh token; getCurrentUserInfo detects the
malformation (returns null) yet afterwards the undecodable access token
is still paired with the present refresh token. -/
theorem malformed_token_not_cleared :
    demoDecode "bad" = none ∧
    (getCurrentUserInfo demoDecode ⟨some "bad", some "r"⟩).1 = none ∧
    (getCurrentUserInfo demoDecode ⟨some "bad", some "r"⟩).2.access =
      some "bad" ∧
    (getCurrentUserInfo demoDecode ⟨some "bad", some "r"⟩).2.refresh =
      some "r" := by
  refine ⟨by decide, rfl, rfl, rfl⟩

/-- Claim C6 amended: with no stored access token, the auth-utils
authenticatedFetch throws the no-token error synchronously and performs
no network call; the part_002 authenticatedFetch instead issues the
resource request once, with only a caller-supplied Authorization header
if any, makes no refresh call even when the answer is a 401, and returns
that first response. -/
theorem noToken_behavior :
    (∀ (st : SessionState) (opts : FetchOptions)
        (res1 res2 : FetchOutcome String) (rn : FetchOutcome RefreshBody),
        st.access = none →
        authenticatedFetch st opts res1 res2 rn =
          (.error .noToken, st, ⟨[], 0⟩)) ∧
    (∀ (r : Option String) (opts : FetchOptions) (s1 : Nat) (b1 : String)
        (res2 : FetchOutcome String) (rn : FetchOutcome RefreshBody),
        part002_authenticatedFetch ⟨none, r⟩ opts (.response s1 b1) res2 rn =
          (.ok ⟨s1, b1⟩, ⟨none, r⟩, ⟨[opts.authHeader], 0⟩)) := by
  constructor
  · intro st opts res1 res2 rn ha
    simp [authenticatedFetch, ha]
  · intro r opts s1 b1 res2 rn
    cases hh : opts.authHeader <;>
      simp [part002_authenticatedFetch, hh]

/-- Witness for the amended C6 statement at concrete inputs, with a 401
first answer on the part_002 side. -/
theorem noToken_behavior_witness :
    authenticatedFetch ⟨none, some "r"⟩ ⟨none⟩ (.response 200 "b")
        (.response 200 "b2") (.response 200 ⟨some "x"⟩) =
      (.error .noToken, ⟨none, some "r"⟩, ⟨[], 0⟩) ∧
    part002_authenticatedFetch ⟨none, some "r"⟩ ⟨none⟩ (.response 401 "denied")
        (.response 200 "b2") (.response 200 ⟨some "x"⟩) =
      (.ok ⟨401, "denied"⟩, ⟨none, some "r"⟩, ⟨[none], 0⟩) :=
  ⟨noToken_behavior.1 ⟨none, some "r"⟩ ⟨none⟩ (.response 200 "b")
      (.response 200 "b2") (.response 200 ⟨some "x"⟩) rfl,
   noToken_behavior.2 (some "r") ⟨none⟩ 401 "denied" (.response 200 "b2")
      (.response 200 ⟨some "x"⟩)⟩

/-- Counterexample to claim C6 as stated: the part_002 authenticatedFetch
called with no stored access token does not fail with the no-token error;
it performs one resource call (with no Authorization header) and returns
its response. -/
theorem part002_noToken_still_fetches :
    (part002_authenticatedFetch ⟨none, some "r"⟩ ⟨none⟩
        (.response 401 "denied") (.response 200 "ok")
        (.response 200 ⟨some "x"⟩)).1 = .ok ⟨401, "denied"⟩ ∧
    (part002_authenticatedFetch ⟨none, some "r"⟩ ⟨none⟩
        (.response 401 "denied") (.response 200 "ok")
        (.response 200 ⟨some "x"⟩)).2.2.resourceAuthHeaders = [none] := by
  refine ⟨rfl, rfl⟩

/-- Claim C1: when the first resource answer is a 401 and the refresh then
succeeds, authenticatedFetch re-issues the request exactly once with the
Authorization header rebuilt from the access token that refresh stored,
and returns the second response unchanged, even a second 401; the trace
shows exactly two resource calls and one refresh call, so no third
resource call happens. -/
theorem authenticatedFetch_retries_once (st : SessionState)
    (opts : FetchOptions) (tok b1 : String) (s2 : Nat) (b2 : String)
    (refreshNet : FetchOutcome RefreshBody)
    (hacc : st.access = some tok)
    (hrefresh : (refreshAccessToken st refreshNet).1 = true) :
    ∃ newTok,
      (refreshAccessToken st refreshNet).2.access = some newTok ∧
      authenticatedFetch st opts (.response 401 b1) (.response s2 b2)
          refreshNet =
        (.ok ⟨s2, b2⟩, (refreshAccessToken st refreshNet).2,
         ⟨[some (mergedAuthHeader opts tok), some (bearer newTok)], 1⟩) := by
  obtain ⟨r, status, body, hr, hnet, hok, heq⟩ :=
    refresh_true_inversion st refreshNet hrefresh
  refine ⟨jsToString body.access, by rw [heq], ?_⟩
  simp [authenticatedFetch, hacc, heq, jsTemplate, refreshNetworkCalls, hr]

/-- Witness for C1: refresh answers 200 with a fresh token, the retried
request is rejected again with a 401, and that second 401 is returned
with exactly two resource calls in the trace. -/
theorem authenticatedFetch_retries_once_witness :
    ∃ newTok,
      (refreshAccessToken ⟨some "old", some "r"⟩
          (.response 200 ⟨some "fresh"⟩)).2.access = some newTok ∧
      authenticatedFetch ⟨some "old", some "r"⟩ ⟨none⟩ (.response 401 "denied")
          (.response 401 "denied again") (.response 200 ⟨some "fresh"⟩) =
        (.ok ⟨401, "denied again"⟩,
         (refreshAccessToken ⟨some "old", some "r"⟩
            (.response 200 ⟨some "fresh"⟩)).2,
         ⟨[some (mergedAuthHeader ⟨none⟩ "old"), some (bearer newTok)], 1⟩) :=
  authenticatedFetch_retries_once ⟨some "old", some "r"⟩ ⟨none⟩ "old" "denied"
    401 "denied again" (.response 200 ⟨some "fresh"⟩) rfl (by decide)

end ZPredict
